import Mathlib

/-!
Verification of the multi-period GSC metrics aggregation dashboard.

This development shallowly embeds the date-window planner (`app.py`), the
analytics-row post-processing (`gsc_api.py`), the cross-product aggregation and
wide-table merge of the main data-analysis loop (`app.py`), the metric summary
and heatmap change computations (`data_viz.py`), and the batch URL inspection
fan-out (`site_analyzer.py`).

Conventions of the embedding:
* Calendar dates are integers (days since an arbitrary epoch); `today` is an
  explicit parameter wherever the source reads the ambient clock.
* Python floats are rationals; the pandas/NumPy `round(1)` is half-to-even
  rounding at one decimal, modelled by `round1`.
* Float columns that can hold NaN are modelled with `Option` (missing = NaN),
  and where IEEE infinities can arise (the heatmap's division) the richer
  carrier `PFloat` with explicit `posInf` / `negInf` / `nan` is used.
* Fallible Python code returns `Except`; an uncaught Python exception is the
  `Except.error` case.
-/

/-- Half-to-even ("banker's") rounding of a rational to an integer, the
rounding used by pandas/NumPy `round`. -/
def roundHalfEven (q : ℚ) : ℤ :=
  let f := ⌊q⌋
  if q - f < 1 / 2 then f
  else if q - f > 1 / 2 then f + 1
  else if f % 2 = 0 then f else f + 1

/-- Pandas `Series.round(1)`: rounding to one decimal place, half to even. -/
def round1 (q : ℚ) : ℚ := (roundHalfEven (q * 10) : ℚ) / 10

/-- NumPy `astype(int)`: truncation of a float toward zero. -/
def astypeInt (q : ℚ) : ℤ := if 0 ≤ q then ⌊q⌋ else ⌈q⌉

/-- Python exceptions that the embedded code can raise. -/
inductive PyErr where
  | nameError : String → PyErr
  | keyError : String → PyErr
  | typeError : String → PyErr
  deriving DecidableEq

/-- Value side of the `PERIOD_OPTIONS` dict in `app.py`: either a day count or
the `"YoY"` string marker. -/
inductive PeriodValue where
  | days : ℤ → PeriodValue
  | yoy
  deriving DecidableEq

/-- The `PERIOD_OPTIONS` dict of `app.py`, as a lookup function
(`none` = `KeyError`). -/
def PERIOD_OPTIONS : String → Option PeriodValue := fun s =>
  if s = "30 Days" then some (PeriodValue.days 30)
  else if s = "60 Days" then some (PeriodValue.days 60)
  else if s = "90 Days" then some (PeriodValue.days 90)
  else if s = "180 Days" then some (PeriodValue.days 180)
  else if s = "360 Days" then some (PeriodValue.days 360)
  else if s = "Year over Year" then some PeriodValue.yoy
  else none

/-- `get_date_ranges(days, periods)` from `app.py` lines 99-109: for each
`i in range(periods)`, the window ends at `today - 1 - days*i` and starts
`days - 1` days earlier.  `today` is injected; a non-positive `periods` makes
`range(periods)` empty. -/
def get_date_ranges (today days periods : ℤ) : List (ℤ × ℤ) :=
  (List.range periods.toNat).map (fun (i : ℕ) =>
    (today - 1 - days * (i : ℤ) - (days - 1), today - 1 - days * (i : ℤ)))

/-- The numeric-period loop of `calculate_date_ranges` (`app.py` lines
135-143): repeatedly emit `(end - (days-1), end)` and step `end` to one day
before the emitted start. -/
def calcLoop (days : ℤ) : ℤ → Nat → List (ℤ × ℤ)
  | _, 0 => []
  | endDate, n + 1 =>
    (endDate - (days - 1), endDate) :: calcLoop days (endDate - (days - 1) - 1) n

/-- `calculate_date_ranges(period, num_periods)` from `app.py` lines 111-143.
The Year-over-Year branch returns the year-ago window first and the trailing
30-day window second; the numeric branch looks `period` up in
`PERIOD_OPTIONS` (a missing key is a `KeyError`, and the `"YoY"` value would
make `days - 1` a `TypeError`, though that branch is unreachable because the
string equality test catches it first). -/
def calculate_date_ranges (today : ℤ) (period : String) (num_periods : ℤ) :
    Except PyErr (List (ℤ × ℤ)) :=
  let yesterday := today - 1
  if period = "Year over Year" then
    Except.ok [(yesterday - 29 - 365, yesterday - 365), (yesterday - 29, yesterday)]
  else
    match PERIOD_OPTIONS period with
    | none => Except.error (PyErr.keyError period)
    | some PeriodValue.yoy => Except.error (PyErr.typeError "unsupported operand")
    | some (PeriodValue.days d) => Except.ok (calcLoop d yesterday num_periods.toNat)

/-- A raw analytics API row as delivered by the remote service
(`response['rows']` in `gsc_api.py`): clicks, impressions, ctr and position
are plain numbers; the page dimension is carried separately. -/
structure RawRow where
  clicks : ℚ
  impressions : ℚ
  ctr : ℚ
  position : ℚ
  deriving DecidableEq

/-- A processed metrics row as returned by `fetch_search_analytics`. -/
structure MetricRow where
  clicks : ℤ
  impressions : ℤ
  ctr : ℚ
  position : ℚ
  deriving DecidableEq

/-- The per-row metric formatting of `fetch_search_analytics` (`gsc_api.py`
lines 113-117): clicks and impressions cast to int, position rounded to one
decimal, and ctr multiplied by 100 then rounded to one decimal. -/
def processRow (r : RawRow) : MetricRow :=
  { clicks := astypeInt r.clicks
  , impressions := astypeInt r.impressions
  , ctr := round1 (r.ctr * 100)
  , position := round1 r.position }

/-- `fetch_search_analytics` applied to the whole response row set. -/
def fetch_search_analytics_rows (raw : List RawRow) : List MetricRow :=
  raw.map processRow

/-- One row of the dataframe returned by one `fetch_search_analytics` call in
the main analysis loop (dimension `page` plus the four metric values). -/
structure FetchRow where
  page : String
  clicks : ℚ
  impressions : ℚ
  ctr : ℚ
  position : ℚ
  deriving DecidableEq

/-- One row of the concatenated long-format table in `main` (`app.py` lines
374-385): after the column rename, a row fetched for window `i` carries values
only in the `*_Period_{i+1}` columns, recorded here by the `period` tag. -/
structure LongRow where
  page : String
  period : Nat
  clicks : ℚ
  impressions : ℚ
  ctr : ℚ
  position : ℚ
  deriving DecidableEq

/-- Renaming the columns of a fetched row for window `i`. -/
def tagRow (i : Nat) (r : FetchRow) : LongRow :=
  ⟨r.page, i, r.clicks, r.impressions, r.ctr, r.position⟩

/-- The iteration order of the main analysis loop: outer over URLs, inner over
the window indices. -/
def urlWindowPairs (urls : List String) (n : Nat) : List (String × Nat) :=
  urls.flatMap (fun u => (List.range n).map (fun i => (u, i)))

/-- The rows of an `Except` value that succeeded, else no rows. -/
def okD (x : Except String (List FetchRow)) : List FetchRow :=
  match x with
  | Except.ok rows => rows
  | Except.error _ => []

/-- The fetch loop of `main` (`app.py` lines 362-378): the whole loop runs
inside a single `try`, so the first raising fetch call aborts everything;
otherwise the non-empty results are renamed and concatenated in iteration
order. -/
def fetchPairs (fetch : String → Nat → Except String (List FetchRow)) :
    List (String × Nat) → Except String (List LongRow)
  | [] => Except.ok []
  | p :: rest =>
    match fetch p.1 p.2 with
    | Except.error e => Except.error e
    | Except.ok rows =>
      match fetchPairs fetch rest with
      | Except.error e => Except.error e
      | Except.ok tail => Except.ok (rows.map (tagRow p.2) ++ tail)

/-- Outcome of the data-analysis section of `main`: an uncaught exception
reported by the outer handler, the distinct "No data found" warning, or the
combined long-format table that feeds the group-by merge. -/
inductive AggResult where
  | error : String → AggResult
  | noData : AggResult
  | table : List LongRow → AggResult
  deriving DecidableEq

/-- The aggregation of `main` (`app.py` lines 357-386): fetch every
(URL, window) pair under one exception handler, warn distinctly when no pair
produced rows, else hand the concatenated rows to the merge. -/
def main_aggregate (fetch : String → Nat → Except String (List FetchRow))
    (urls : List String) (n : Nat) : AggResult :=
  match fetchPairs fetch (urlWindowPairs urls n) with
  | Except.error e => AggResult.error e
  | Except.ok rows => if rows = [] then AggResult.noData else AggResult.table rows

/-- A cell of the merged wide table (`combined_df.groupby('page').first()` in
`app.py` line 386): for page `p` and column `{metric}_Period_{i+1}`, pandas
`first` returns the first non-null value in the group, i.e. the metric of the
first long row of page `p` tagged with window `i`; `none` is NaN. -/
def wideCell (rows : List LongRow) (p : String) (i : Nat) (f : LongRow → ℚ) :
    Option ℚ :=
  ((rows.filter (fun r => r.page == p && r.period == i)).map f).head?

/-- The pages (row keys) of the merged wide table. -/
def widePages (rows : List LongRow) : List String :=
  (rows.map (fun r => r.page)).dedup

/-- Summary statistics for one metric column over one period, as built by
`create_metric_summary` (`data_viz.py` lines 61-79).  `none` is NaN (the
pandas result on an empty or all-NaN column for mean/min/max). -/
structure PeriodStats where
  total : Option ℚ
  avg : Option ℚ
  statMin : Option ℚ
  statMax : Option ℚ
  deriving DecidableEq

/-- The wide table seen column-wise: the set of column names present, and the
cells of each column top to bottom (`none` = NaN). -/
structure WideTableCols where
  cols : List String
  colVals : String → List (Option ℚ)

/-- The non-null values of a column, which is what the pandas reductions
`sum`/`mean`/`min`/`max` operate on (NaN is skipped). -/
def colData (t : WideTableCols) (c : String) : List ℚ :=
  (t.colVals c).reduceOption

/-- Pandas `Series.mean()`: NaN on an empty column, else sum over count. -/
def pdMean (l : List ℚ) : Option ℚ :=
  if l = [] then none else some (l.sum / (l.length : ℚ))

/-- `create_metric_summary` (`data_viz.py` lines 61-79): for each of the four
metrics and each requested period whose column exists, record total (sum for
clicks/impressions, mean otherwise), average, min and max of the column. -/
def create_metric_summary (t : WideTableCols) (periods : List String) :
    List (String × List (String × PeriodStats)) :=
  ["clicks", "impressions", "position", "ctr"].map (fun metric =>
    (metric, periods.filterMap (fun p =>
      let c := metric ++ "_" ++ p
      if c ∈ t.cols then
        let d := colData t c
        some (p,
          { total := if metric = "clicks" ∨ metric = "impressions"
                     then some d.sum else pdMean d
          , avg := pdMean d
          , statMin := d.min?
          , statMax := d.max? })
      else none)))

/-- A concrete three-cell wide table used to evaluate the summary claims. -/
def wtFixture : WideTableCols :=
  { cols := ["clicks_Period_1"]
  , colVals := fun c => if c = "clicks_Period_1" then [some 2, none, some 3] else [] }

/-- An IEEE-style float value as it appears in the heatmap computation:
a finite value, a signed infinity, or NaN. -/
inductive PFloat where
  | val : ℚ → PFloat
  | posInf
  | negInf
  | nan
  deriving DecidableEq

/-- IEEE float subtraction restricted to the carrier `PFloat`. -/
def PFloat.sub : PFloat → PFloat → PFloat
  | PFloat.nan, _ => PFloat.nan
  | _, PFloat.nan => PFloat.nan
  | PFloat.val a, PFloat.val b => PFloat.val (a - b)
  | PFloat.val _, PFloat.posInf => PFloat.negInf
  | PFloat.val _, PFloat.negInf => PFloat.posInf
  | PFloat.posInf, PFloat.val _ => PFloat.posInf
  | PFloat.posInf, PFloat.posInf => PFloat.nan
  | PFloat.posInf, PFloat.negInf => PFloat.posInf
  | PFloat.negInf, PFloat.val _ => PFloat.negInf
  | PFloat.negInf, PFloat.posInf => PFloat.negInf
  | PFloat.negInf, PFloat.negInf => PFloat.nan

/-- IEEE float division on `PFloat`; NumPy float division of a nonzero value
by zero yields a signed infinity and `0/0` yields NaN. -/
def PFloat.div : PFloat → PFloat → PFloat
  | PFloat.nan, _ => PFloat.nan
  | _, PFloat.nan => PFloat.nan
  | PFloat.val a, PFloat.val b =>
    if b = 0 then
      (if 0 < a then PFloat.posInf else if a < 0 then PFloat.negInf else PFloat.nan)
    else PFloat.val (a / b)
  | PFloat.val _, PFloat.posInf => PFloat.val 0
  | PFloat.val _, PFloat.negInf => PFloat.val 0
  | PFloat.posInf, PFloat.val b => if 0 ≤ b then PFloat.posInf else PFloat.negInf
  | PFloat.negInf, PFloat.val b => if 0 ≤ b then PFloat.negInf else PFloat.posInf
  | PFloat.posInf, PFloat.posInf => PFloat.nan
  | PFloat.posInf, PFloat.negInf => PFloat.nan
  | PFloat.negInf, PFloat.posInf => PFloat.nan
  | PFloat.negInf, PFloat.negInf => PFloat.nan

/-- IEEE float multiplication on `PFloat`. -/
def PFloat.mul : PFloat → PFloat → PFloat
  | PFloat.nan, _ => PFloat.nan
  | _, PFloat.nan => PFloat.nan
  | PFloat.val a, PFloat.val b => PFloat.val (a * b)
  | PFloat.val a, PFloat.posInf =>
    if 0 < a then PFloat.posInf else if a < 0 then PFloat.negInf else PFloat.nan
  | PFloat.val a, PFloat.negInf =>
    if 0 < a then PFloat.negInf else if a < 0 then PFloat.posInf else PFloat.nan
  | PFloat.posInf, PFloat.val b =>
    if 0 < b then PFloat.posInf else if b < 0 then PFloat.negInf else PFloat.nan
  | PFloat.negInf, PFloat.val b =>
    if 0 < b then PFloat.negInf else if b < 0 then PFloat.posInf else PFloat.nan
  | PFloat.posInf, PFloat.posInf => PFloat.posInf
  | PFloat.posInf, PFloat.negInf => PFloat.negInf
  | PFloat.negInf, PFloat.posInf => PFloat.negInf
  | PFloat.negInf, PFloat.negInf => PFloat.posInf

/-- Pandas `round(1)` lifted to `PFloat` (infinities and NaN are unchanged). -/
def PFloat.round1P : PFloat → PFloat
  | PFloat.val a => PFloat.val (round1 a)
  | x => x

/-- The element-wise change computation of `create_heatmap` (`data_viz.py`
lines 142-157): for the `ctr` metric the strings are stripped of `%` and the
resulting percentage values subtracted; for every other metric the change is
`(current - previous) / previous * 100` rounded to one decimal. -/
def heatmap_change (metric : String) (cur prev : PFloat) : PFloat :=
  if metric = "ctr" then cur.sub prev
  else (((cur.sub prev).div prev).mul (PFloat.val 100)).round1P

/-- The change columns of `create_heatmap`: one column per adjacent period
pair, each computed element-wise over the rows of the two period columns. -/
def create_heatmap_changes (metric : String) (cols : List (List PFloat)) :
    List (List PFloat) :=
  (cols.zip cols.tail).map (fun cp => List.zipWith (heatmap_change metric) cp.1 cp.2)

/-- The names imported from `typing` at the top of `site_analyzer.py`
(line 6).  `Tuple` is not among them. -/
def siteAnalyzerTypingScope : List String :=
  ["List", "Dict", "Any", "Optional"]

/-- Python name resolution against the module scope: a name not in scope
raises `NameError` at evaluation time. -/
def resolveTypingName (n : String) : Except PyErr Unit :=
  if n ∈ siteAnalyzerTypingScope then Except.ok () else Except.error (PyErr.nameError n)

/-- An entry of the result mapping of `batch_inspect_urls`: a formatted
inspection result, or the per-URL error marker `{'error': str(e)}`. -/
inductive InspectEntry (α : Type) where
  | result : α → InspectEntry α
  | errorMarker : String → InspectEntry α
  deriving DecidableEq

/-- `batch_inspect_urls` (`site_analyzer.py` lines 141-172).  Calling it first
executes `results = {}` and then the inner `def inspect_url`, whose return
annotation evaluates the name `Tuple`; only if that resolves does the fan-out
run, producing one entry per submitted URL (a result on success, an error
marker on failure).  The second component counts the inspection calls
submitted to the pool. -/
def batch_inspect_urls {α : Type} (inspect : String → Except String α)
    (urls : List String) :
    Except PyErr (List (String × InspectEntry α)) × Nat :=
  match resolveTypingName "Tuple" with
  | Except.error e => (Except.error e, 0)
  | Except.ok _ =>
    (Except.ok (urls.map (fun u =>
      (u, match inspect u with
          | Except.ok r => InspectEntry.result r
          | Except.error e => InspectEntry.errorMarker e))), urls.length)

/-- A concrete data row used to evaluate the wide-table merge claims. -/
def wfetchRow : FetchRow := ⟨"wa", 10, 100, 5, 2⟩

/-- A concrete fetch capability with one data row for (`"wa"`, window 0) and
no rows anywhere else. -/
def wfetch : String → Nat → Except String (List FetchRow) := fun u i =>
  if u = "wa" ∧ i = 0 then Except.ok [wfetchRow] else Except.ok []

theorem roundHalfEven_ge (n : ℤ) (q : ℚ) (h : (n : ℚ) ≤ q) : n ≤ roundHalfEven q := by
  have hfl : n ≤ ⌊q⌋ := Int.le_floor.mpr h
  simp only [roundHalfEven]
  split_ifs <;> omega

theorem roundHalfEven_le (n : ℤ) (q : ℚ) (h : q ≤ (n : ℚ)) : roundHalfEven q ≤ n := by
  have hfl : ⌊q⌋ ≤ n := by
    have h2 : ⌊q⌋ ≤ ⌊(n : ℚ)⌋ := Int.floor_le_floor h
    simpa using h2
  have hq : (⌊q⌋ : ℚ) ≤ q := Int.floor_le q
  simp only [roundHalfEven]
  split_ifs with h1 h2 h3
  · exact hfl
  · have h4 : (⌊q⌋ : ℚ) + 1 / 2 ≤ q := by
      have := not_lt.mp h1
      linarith
    have h5 : ((⌊q⌋ : ℚ)) < (n : ℚ) := by linarith
    have h6 : ⌊q⌋ < n := by exact_mod_cast h5
    omega
  · exact hfl
  · have h4 : (⌊q⌋ : ℚ) + 1 / 2 ≤ q := by
      have := not_lt.mp h1
      linarith
    have h5 : ((⌊q⌋ : ℚ)) < (n : ℚ) := by linarith
    have h6 : ⌊q⌋ < n := by exact_mod_cast h5
    omega

theorem round1_nonneg (q : ℚ) (h : 0 ≤ q) : 0 ≤ round1 q := by
  have h1 : (0 : ℤ) ≤ roundHalfEven (q * 10) := by
    apply roundHalfEven_ge
    push_cast
    linarith
  have h2 : (0 : ℚ) ≤ (roundHalfEven (q * 10) : ℚ) := by exact_mod_cast h1
  unfold round1
  linarith

theorem round1_le_int (q : ℚ) (n : ℤ) (h : q ≤ (n : ℚ)) : round1 q ≤ (n : ℚ) := by
  have h1 : roundHalfEven (q * 10) ≤ 10 * n := by
    apply roundHalfEven_le
    push_cast
    linarith
  have h2 : (roundHalfEven (q * 10) : ℚ) ≤ ((10 * n : ℤ) : ℚ) := by exact_mod_cast h1
  push_cast at h2
  unfold round1
  linarith

theorem round1_ge_int (q : ℚ) (n : ℤ) (h : (n : ℚ) ≤ q) : (n : ℚ) ≤ round1 q := by
  have h1 : 10 * n ≤ roundHalfEven (q * 10) := by
    apply roundHalfEven_ge
    push_cast
    linarith
  have h2 : ((10 * n : ℤ) : ℚ) ≤ (roundHalfEven (q * 10) : ℚ) := by exact_mod_cast h1
  push_cast at h2
  unfold round1
  linarith

theorem get_date_ranges_length (today days periods : ℤ) :
    (get_date_ranges today days periods).length = periods.toNat := by
  unfold get_date_ranges
  rw [List.length_map, List.length_range]

theorem get_date_ranges_get (today days periods : ℤ) (i : Nat)
    (h : i < (get_date_ranges today days periods).length) :
    (get_date_ranges today days periods).get ⟨i, h⟩ =
      (today - 1 - days * (i : ℤ) - (days - 1), today - 1 - days * (i : ℤ)) := by
  simp only [get_date_ranges, List.get_eq_getElem, List.getElem_map, List.getElem_range]

/-- Claim C1 counterexample: with `today = 1000`, the Year-over-Year planner
returns the year-ago window `(605, 634)` at index 0, not the trailing 30-day
window `(970, 999) = (yesterday - 29, yesterday)` that the claim puts at
index 0. -/
theorem calculate_date_ranges_yoy_order_cex :
    calculate_date_ranges 1000 "Year over Year" 2 = Except.ok [(605, 634), (970, 999)]
    ∧ ((605, 634) : ℤ × ℤ) ≠ ((1000 - 1 - 29, 1000 - 1) : ℤ × ℤ) := by
  constructor
  · norm_num [calculate_date_ranges]
  · decide

/-- Claim C1 (amended): in Year-over-Year mode `calculate_date_ranges`
ignores the period count and returns exactly two 30-day windows, but ordered
oldest first: index 1 is `[yesterday - 29, yesterday]` and index 0 is that
same window shifted back exactly 365 days. -/
theorem calculate_date_ranges_yoy_amended (today num_periods : ℤ) :
    ∃ w0 w1 : ℤ × ℤ,
      calculate_date_ranges today "Year over Year" num_periods = Except.ok [w0, w1]
      ∧ w1 = (today - 1 - 29, today - 1)
      ∧ w0 = (w1.1 - 365, w1.2 - 365)
      ∧ w1.2 - w1.1 = 29 ∧ w0.2 - w0.1 = 29 := by
  refine ⟨(today - 1 - 29 - 365, today - 1 - 365), (today - 1 - 29, today - 1),
    ?_, rfl, ?_, by ring, by ring⟩
  · simp [calculate_date_ranges]
  · simp

/-- Claim C6: for every day count `D ≥ 1` and period count `N ≥ 1` the numeric
planner `get_date_ranges` returns exactly `N` windows, window 0 is
`[yesterday - (D-1), yesterday]`, every window spans exactly `D` days
inclusive, each later window ends exactly one day before the previous window
starts, and no window reaches today. -/
theorem get_date_ranges_plan (today days periods : ℤ)
    (hd : 1 ≤ days) (hp : 1 ≤ periods) :
    (((get_date_ranges today days periods).length : ℤ) = periods)
    ∧ (∀ h0 : 0 < (get_date_ranges today days periods).length,
        (get_date_ranges today days periods).get ⟨0, h0⟩ =
          (today - 1 - (days - 1), today - 1))
    ∧ (∀ i, ∀ h : i < (get_date_ranges today days periods).length,
        ((get_date_ranges today days periods).get ⟨i, h⟩).2 -
          ((get_date_ranges today days periods).get ⟨i, h⟩).1 = days - 1)
    ∧ (∀ i, ∀ h : i + 1 < (get_date_ranges today days periods).length,
        ((get_date_ranges today days periods).get ⟨i + 1, h⟩).2 =
          ((get_date_ranges today days periods).get ⟨i, Nat.lt_of_succ_lt h⟩).1 - 1)
    ∧ (∀ i, ∀ h : i < (get_date_ranges today days periods).length,
        ((get_date_ranges today days periods).get ⟨i, h⟩).1 ≤
            ((get_date_ranges today days periods).get ⟨i, h⟩).2
          ∧ ((get_date_ranges today days periods).get ⟨i, h⟩).2 < today) := by
  refine ⟨?_, ?_, ?_, ?_, ?_⟩
  · rw [get_date_ranges_length]
    omega
  · intro h0
    rw [get_date_ranges_get]
    push_cast
    simp only [Prod.mk.injEq]
    constructor <;> ring
  · intro i h
    rw [get_date_ranges_get]
    ring
  · intro i h
    rw [get_date_ranges_get, get_date_ranges_get]
    push_cast
    ring
  · intro i h
    rw [get_date_ranges_get]
    have hi : (0 : ℤ) ≤ (i : ℤ) := Int.natCast_nonneg i
    have hmul : (0 : ℤ) ≤ days * (i : ℤ) := mul_nonneg (by omega) hi
    dsimp only
    constructor
    · linarith
    · linarith

/-- Claim C6 witness: the plan properties instantiated at `today = 800`,
`D = 30`, `N = 2`. -/
theorem get_date_ranges_plan_witness :
    (1 : ℤ) ≤ 30 ∧ (1 : ℤ) ≤ 2 ∧
    ((((get_date_ranges 800 30 2).length : ℤ) = 2)
    ∧ (∀ h0 : 0 < (get_date_ranges 800 30 2).length,
        (get_date_ranges 800 30 2).get ⟨0, h0⟩ = (800 - 1 - (30 - 1), 800 - 1))
    ∧ (∀ i, ∀ h : i < (get_date_ranges 800 30 2).length,
        ((get_date_ranges 800 30 2).get ⟨i, h⟩).2 -
          ((get_date_ranges 800 30 2).get ⟨i, h⟩).1 = 30 - 1)
    ∧ (∀ i, ∀ h : i + 1 < (get_date_ranges 800 30 2).length,
        ((get_date_ranges 800 30 2).get ⟨i + 1, h⟩).2 =
          ((get_date_ranges 800 30 2).get ⟨i, Nat.lt_of_succ_lt h⟩).1 - 1)
    ∧ (∀ i, ∀ h : i < (get_date_ranges 800 30 2).length,
        ((get_date_ranges 800 30 2).get ⟨i, h⟩).1 ≤
            ((get_date_ranges 800 30 2).get ⟨i, h⟩).2
          ∧ ((get_date_ranges 800 30 2).get ⟨i, h⟩).2 < 800)) :=
  ⟨by norm_num, by norm_num, get_date_ranges_plan 800 30 2 (by norm_num) (by norm_num)⟩

/-- Claim C10 counterexample: for period count `0 < 1` the planner silently
returns the empty window list as a successful value instead of raising an
`InvalidArgument` error. -/
theorem calculate_date_ranges_zero_periods_cex :
    calculate_date_ranges 1000 "30 Days" 0 = Except.ok [] := by
  simp [calculate_date_ranges, PERIOD_OPTIONS, calcLoop]

/-- Claim C10 (amended): for every period count less than 1, the date-window
planner does not reject the request; both planners silently return the empty
window list, and no error is raised. -/
theorem date_ranges_zero_periods_amended (today : ℤ) (period : String) (d : ℤ)
    (num_periods : ℤ) (hp : PERIOD_OPTIONS period = some (PeriodValue.days d))
    (hn : num_periods < 1) :
    calculate_date_ranges today period num_periods = Except.ok []
    ∧ get_date_ranges today d num_periods = [] := by
  have hy : period ≠ "Year over Year" := by
    intro he
    rw [he] at hp
    simp [PERIOD_OPTIONS] at hp
  have ht : num_periods.toNat = 0 := by omega
  constructor
  · simp [calculate_date_ranges, hy, hp, ht, calcLoop]
  · simp [get_date_ranges, ht]

/-- Claim C10 witness: at period `"30 Days"` and count `0`, the planner
returns the empty list without error. -/
theorem date_ranges_zero_periods_amended_witness :
    PERIOD_OPTIONS "30 Days" = some (PeriodValue.days 30) ∧ (0 : ℤ) < 1 ∧
    (calculate_date_ranges 700 "30 Days" 0 = Except.ok []
      ∧ get_date_ranges 700 30 0 = []) :=
  ⟨by norm_num [PERIOD_OPTIONS], by norm_num,
    date_ranges_zero_periods_amended 700 "30 Days" 30 0 (by norm_num [PERIOD_OPTIONS])
      (by norm_num)⟩

/-- Claim C9 counterexample: a raw API row reporting the fraction
`ctr = 1/2` is returned by `fetch_search_analytics` with `ctr = 50`, which is
not in `[0, 1]` — the returned ctr is a percentage, not a fraction. -/
theorem fetch_ctr_not_fraction_cex :
    (processRow ⟨3, 10, 1/2, 2⟩).ctr = 50
    ∧ ¬ ((processRow ⟨3, 10, 1/2, 2⟩).ctr ≤ 1) := by
  have h : (processRow ⟨3, 10, 1/2, 2⟩).ctr = 50 := by
    show round1 ((1/2 : ℚ) * 100) = 50
    norm_num [round1, roundHalfEven]
  refine ⟨h, ?_⟩
  rw [h]
  norm_num

/-- Claim C9 (amended): given a raw API row with `clicks ≥ 0`,
`impressions ≥ 0`, `ctr` a fraction in `[0, 1]` and `position ≥ 1`, the row
returned by `fetch_search_analytics` has integer `clicks ≥ 0` and
`impressions ≥ 0`, `position ≥ 1` rounded to one decimal, and `ctr` a
percentage in `[0, 100]` rounded to one decimal (the fraction is multiplied
by 100 before being returned). -/
theorem fetch_row_shape_amended (r : RawRow)
    (hc : 0 ≤ r.clicks) (hi : 0 ≤ r.impressions)
    (hctr0 : 0 ≤ r.ctr) (hctr1 : r.ctr ≤ 1) (hpos : 1 ≤ r.position) :
    0 ≤ (processRow r).clicks ∧ 0 ≤ (processRow r).impressions
    ∧ 0 ≤ (processRow r).ctr ∧ (processRow r).ctr ≤ 100
    ∧ 1 ≤ (processRow r).position := by
  refine ⟨?_, ?_, ?_, ?_, ?_⟩
  · show (0 : ℤ) ≤ astypeInt r.clicks
    rw [astypeInt, if_pos hc]
    exact Int.le_floor.mpr (by exact_mod_cast hc)
  · show (0 : ℤ) ≤ astypeInt r.impressions
    rw [astypeInt, if_pos hi]
    exact Int.le_floor.mpr (by exact_mod_cast hi)
  · show (0 : ℚ) ≤ round1 (r.ctr * 100)
    exact round1_nonneg _ (by linarith)
  · show round1 (r.ctr * 100) ≤ 100
    have h := round1_le_int (r.ctr * 100) 100 (by push_cast; linarith)
    exact_mod_cast h
  · show (1 : ℚ) ≤ round1 r.position
    have h := round1_ge_int r.position 1 (by push_cast; linarith)
    exact_mod_cast h

/-- Claim C9 witness: the amended row-shape bounds at the concrete raw row
`(3, 10, 1/2, 2)`. -/
theorem fetch_row_shape_amended_witness :
    (0 : ℚ) ≤ 3 ∧ (0 : ℚ) ≤ 10 ∧ (0 : ℚ) ≤ 1/2 ∧ (1/2 : ℚ) ≤ 1 ∧ (1 : ℚ) ≤ 2 ∧
    (0 ≤ (processRow ⟨3, 10, 1/2, 2⟩).clicks
      ∧ 0 ≤ (processRow ⟨3, 10, 1/2, 2⟩).impressions
      ∧ 0 ≤ (processRow ⟨3, 10, 1/2, 2⟩).ctr
      ∧ (processRow ⟨3, 10, 1/2, 2⟩).ctr ≤ 100
      ∧ 1 ≤ (processRow ⟨3, 10, 1/2, 2⟩).position) :=
  ⟨by norm_num, by norm_num, by norm_num, by norm_num, by norm_num,
    fetch_row_shape_amended ⟨3, 10, 1/2, 2⟩ (by norm_num) (by norm_num) (by norm_num)
      (by norm_num) (by norm_num)⟩

/-- Claim C2 counterexample: for the clicks metric with current value 150 and
previous value 0, the heatmap change column holds positive infinity — not an
explicit "no comparison available" marker. -/
theorem heatmap_change_zero_prev_cex :
    create_heatmap_changes "clicks" [[PFloat.val 150], [PFloat.val 0]] = [[PFloat.posInf]]
    ∧ PFloat.posInf ≠ PFloat.nan := by
  constructor
  · simp [create_heatmap_changes, heatmap_change, PFloat.sub, PFloat.div, PFloat.mul,
      PFloat.round1P]
  · simp

/-- Claim C2 (amended): for a non-ctr metric, when both values are present and
the previous value is nonzero the per-URL change is
`(current - previous) / previous * 100` rounded to one decimal; when the
previous value is zero the change is a signed infinity (NaN only for `0/0`);
when either value is absent the change is NaN.  For the ctr metric the change
is the plain difference of the percentage values.  No case is a runtime
failure. -/
theorem heatmap_change_amended (metric : String) (hm : metric ≠ "ctr") (q r : ℚ) :
    (heatmap_change metric (PFloat.val q) (PFloat.val r) =
      if r = 0 then
        (if 0 < q then PFloat.posInf else if q < 0 then PFloat.negInf else PFloat.nan)
      else PFloat.val (round1 ((q - r) / r * 100)))
    ∧ heatmap_change metric (PFloat.val q) PFloat.nan = PFloat.nan
    ∧ heatmap_change metric PFloat.nan (PFloat.val r) = PFloat.nan
    ∧ heatmap_change "ctr" (PFloat.val q) (PFloat.val r) = PFloat.val (q - r)
    ∧ heatmap_change "ctr" (PFloat.val q) PFloat.nan = PFloat.nan := by
  refine ⟨?_, ?_, ?_, ?_, ?_⟩
  · rw [heatmap_change, if_neg hm]
    by_cases hr : r = 0
    · subst hr
      rw [if_pos rfl]
      by_cases hq : 0 < q
      · rw [if_pos hq]
        simp [PFloat.sub, PFloat.div, PFloat.mul, PFloat.round1P, hq, sub_zero]
      · rw [if_neg hq]
        by_cases hq2 : q < 0
        · rw [if_pos hq2]
          simp [PFloat.sub, PFloat.div, PFloat.mul, PFloat.round1P, hq, hq2, sub_zero,
            not_lt.mp hq]
        · rw [if_neg hq2]
          have hq0 : q = 0 := le_antisymm (not_lt.mp hq) (not_lt.mp hq2)
          subst hq0
          simp [PFloat.sub, PFloat.div, PFloat.mul, PFloat.round1P]
    · rw [if_neg hr]
      simp [PFloat.sub, PFloat.div, PFloat.mul, PFloat.round1P, hr]
  · rw [heatmap_change, if_neg hm]
    simp [PFloat.sub, PFloat.div, PFloat.mul, PFloat.round1P]
  · rw [heatmap_change, if_neg hm]
    simp [PFloat.sub, PFloat.div, PFloat.mul, PFloat.round1P]
  · simp [heatmap_change, PFloat.sub]
  · simp [heatmap_change, PFloat.sub]

/-- Claim C2 witness: the amended change semantics at concrete cells — a
normal +50 percent change, the zero-previous infinity, and the missing-value
NaN marker. -/
theorem heatmap_change_amended_witness :
    (("clicks" : String) ≠ "ctr")
    ∧ heatmap_change "clicks" (PFloat.val 150) (PFloat.val 100) = PFloat.val 50
    ∧ heatmap_change "clicks" (PFloat.val 150) (PFloat.val 0) = PFloat.posInf
    ∧ heatmap_change "clicks" (PFloat.val 150) PFloat.nan = PFloat.nan := by
  have h100 := heatmap_change_amended "clicks" (by simp) 150 100
  have h0 := heatmap_change_amended "clicks" (by simp) 150 0
  refine ⟨by simp, ?_, ?_, h100.2.1⟩
  · rw [h100.1]
    norm_num [round1, roundHalfEven]
  · rw [h0.1]
    norm_num

/-- Claim C5: for every inspection capability and every URL list (including
the empty list), `batch_inspect_urls` fails with `NameError` for the name
`Tuple` — the return annotation of the inner `inspect_url` references
`Tuple`, which `site_analyzer.py` never imports — and it does so before any
inspection call is submitted (the submission count is 0), so no result
mapping is ever returned. -/
theorem batch_inspect_urls_raises_name_error (α : Type)
    (inspect : String → Except String α) (urls : List String) :
    batch_inspect_urls inspect urls = (Except.error (PyErr.nameError "Tuple"), 0) := by
  simp [batch_inspect_urls, resolveTypingName, siteAnalyzerTypingScope]

/-- Claim C4: evaluation of the code at a failing input.  With a two-URL list
and an inspection capability that would succeed on every URL,
`batch_inspect_urls` still returns the `Tuple` `NameError` with zero
inspection calls submitted, instead of the claimed complete per-URL result
mapping. -/
theorem batch_inspect_urls_no_mapping_at_input :
    batch_inspect_urls (fun _ : String => Except.ok (0 : ℚ))
      ["https://ex.com/a", "https://ex.com/b"]
      = (Except.error (PyErr.nameError "Tuple"), 0) := by
  simp [batch_inspect_urls, resolveTypingName, siteAnalyzerTypingScope]

theorem mem_urlWindowPairs (urls : List String) (n : Nat) (u : String) (i : Nat) :
    (u, i) ∈ urlWindowPairs urls n ↔ u ∈ urls ∧ i < n := by
  simp [urlWindowPairs, List.mem_flatMap, List.mem_map, List.mem_range]

theorem fetchPairs_error_of_mem (fetch : String → Nat → Except String (List FetchRow))
    (ps : List (String × Nat)) (p : String × Nat) (hp : p ∈ ps) (e : String)
    (he : fetch p.1 p.2 = Except.error e) :
    ∃ e2, fetchPairs fetch ps = Except.error e2 := by
  induction ps with
  | nil => cases hp
  | cons q rest ih =>
    rcases List.mem_cons.mp hp with rfl | hrest
    · exact ⟨e, by simp [fetchPairs, he]⟩
    · cases hq : fetch q.1 q.2 with
      | error e2 => exact ⟨e2, by simp [fetchPairs, hq]⟩
      | ok rows =>
        obtain ⟨e2, h2⟩ := ih hrest
        exact ⟨e2, by simp [fetchPairs, hq, h2]⟩

theorem fetchPairs_ok_all (fetch : String → Nat → Except String (List FetchRow))
    (ps : List (String × Nat))
    (h : ∀ p ∈ ps, ∃ rows, fetch p.1 p.2 = Except.ok rows) :
    fetchPairs fetch ps =
      Except.ok (ps.flatMap (fun p => (okD (fetch p.1 p.2)).map (tagRow p.2))) := by
  induction ps with
  | nil => simp [fetchPairs]
  | cons q rest ih =>
    obtain ⟨rows, hq⟩ := h q (List.mem_cons_self q rest)
    have hrest := ih (fun p hp => h p (List.mem_cons_of_mem q hp))
    simp only [fetchPairs, hq, hrest, List.flatMap_cons, okD]

/-- Claim C3 counterexample: with two URLs and one window, a fetch failure on
the first (URL, window) pair aborts the whole aggregation with a transport
error even though the second pair has data — the failure is not downgraded to
"no data" for that pair alone. -/
theorem aggregation_abort_cex :
    main_aggregate
      (fun u _ => if u = "u1" then Except.error "boom"
        else Except.ok [⟨"u2", 1, 1, 1, 1⟩])
      ["u1", "u2"] 1 = AggResult.error "boom" := by
  simp [main_aggregate, urlWindowPairs, fetchPairs]

/-- Claim C3 (amended): in the main aggregation over the cross-product of
URLs and windows, a fetch failure for any single (URL, window) pair aborts
the whole aggregation with a transport error (the single try/except wraps the
entire loop); only when every pair succeeds and returns no rows does the
aggregation end in the distinct "no data found" condition. -/
theorem aggregation_failure_policy_amended
    (fetch : String → Nat → Except String (List FetchRow))
    (urls : List String) (n : Nat) :
    ((∃ u ∈ urls, ∃ i, i < n ∧ ∃ e, fetch u i = Except.error e) →
      ∃ e, main_aggregate fetch urls n = AggResult.error e)
    ∧ ((∀ u ∈ urls, ∀ i, i < n → fetch u i = Except.ok []) →
      main_aggregate fetch urls n = AggResult.noData) := by
  constructor
  · rintro ⟨u, hu, i, hi, e, he⟩
    have hp : (u, i) ∈ urlWindowPairs urls n := (mem_urlWindowPairs urls n u i).mpr ⟨hu, hi⟩
    obtain ⟨e2, h2⟩ := fetchPairs_error_of_mem fetch _ (u, i) hp e he
    exact ⟨e2, by simp [main_aggregate, h2]⟩
  · intro hall
    have hok : ∀ p ∈ urlWindowPairs urls n, ∃ rows, fetch p.1 p.2 = Except.ok rows := by
      rintro ⟨u, i⟩ hp
      obtain ⟨hu, hi⟩ := (mem_urlWindowPairs urls n u i).mp hp
      exact ⟨[], hall u hu i hi⟩
    have h2 := fetchPairs_ok_all fetch _ hok
    have h3 : (urlWindowPairs urls n).flatMap
        (fun p => (okD (fetch p.1 p.2)).map (tagRow p.2)) = [] := by
      rw [List.flatMap_eq_nil_iff]
      rintro ⟨u, i⟩ hp
      obtain ⟨hu, hi⟩ := (mem_urlWindowPairs urls n u i).mp hp
      have hD : okD (fetch u i) = [] := by simp [hall u hu i hi, okD]
      simp [hD]
    rw [h3] at h2
    simp [main_aggregate, h2]

/-- Claim C3 witness: a failing fetch makes the aggregation abort with an
error, and an everywhere-empty fetch ends in the distinct no-data condition. -/
theorem aggregation_failure_policy_witness :
    (∃ e, main_aggregate (fun _ _ => Except.error "boom") ["u1"] 1 = AggResult.error e)
    ∧ main_aggregate (fun _ _ => Except.ok []) ["u1"] 1 = AggResult.noData :=
  ⟨(aggregation_failure_policy_amended (fun _ _ => Except.error "boom") ["u1"] 1).1
      ⟨"u1", by simp, 0, by norm_num, "boom", rfl⟩,
    (aggregation_failure_policy_amended (fun _ _ => Except.ok []) ["u1"] 1).2
      (fun _ _ _ _ => rfl)⟩

theorem head?_map_of_all_eq {α β : Type} (l : List α) (v : α) (f : α → β)
    (hne : l ≠ []) (hall : ∀ a ∈ l, a = v) : (l.map f).head? = some (f v) := by
  cases l with
  | nil => cases hne rfl
  | cons a t =>
    simp only [List.map_cons, List.head?_cons]
    rw [hall a (List.mem_cons_self a t)]

/-- Claim C7: if fetching yields exactly one row for URL `X` in window 1
(tagged 0) and no rows for `X` in window 2 (tagged 1), and every other URL's
rows never carry page `X`, then the merged wide table still contains `X`:
all four `*_Period_1` cells for `X` hold that row's metrics and all four
`*_Period_2` cells are missing (NaN), never zero — `X` is not dropped. -/
theorem wide_table_missing_window
    (fetch : String → Nat → Except String (List FetchRow))
    (urls : List String) (X : String) (m : FetchRow)
    (hmem : X ∈ urls) (hpage : m.page = X)
    (h1 : fetch X 0 = Except.ok [m])
    (h2 : fetch X 1 = Except.ok [])
    (hok : ∀ u ∈ urls, ∀ i, i < 2 → ∃ rows, fetch u i = Except.ok rows)
    (hother : ∀ u ∈ urls, ∀ i, i < 2 → ∀ r ∈ okD (fetch u i), u ≠ X → r.page ≠ X) :
    ∃ rows, main_aggregate fetch urls 2 = AggResult.table rows
      ∧ X ∈ widePages rows
      ∧ wideCell rows X 0 (fun r => r.clicks) = some m.clicks
      ∧ wideCell rows X 0 (fun r => r.impressions) = some m.impressions
      ∧ wideCell rows X 0 (fun r => r.ctr) = some m.ctr
      ∧ wideCell rows X 0 (fun r => r.position) = some m.position
      ∧ wideCell rows X 1 (fun r => r.clicks) = none
      ∧ wideCell rows X 1 (fun r => r.impressions) = none
      ∧ wideCell rows X 1 (fun r => r.ctr) = none
      ∧ wideCell rows X 1 (fun r => r.position) = none := by
  have hokp : ∀ p ∈ urlWindowPairs urls 2, ∃ rows, fetch p.1 p.2 = Except.ok rows := by
    rintro ⟨u, i⟩ hp
    obtain ⟨hu, hi⟩ := (mem_urlWindowPairs urls 2 u i).mp hp
    exact hok u hu i hi
  have hfp := fetchPairs_ok_all fetch _ hokp
  set R := (urlWindowPairs urls 2).flatMap
    (fun p => (okD (fetch p.1 p.2)).map (tagRow p.2)) with hR
  have hD1 : okD (fetch X 0) = [m] := by simp [h1, okD]
  have hD2 : okD (fetch X 1) = [] := by simp [h2, okD]
  have hmemR : tagRow 0 m ∈ R := by
    rw [hR]
    apply List.mem_flatMap.mpr
    refine ⟨(X, 0), (mem_urlWindowPairs urls 2 X 0).mpr ⟨hmem, by norm_num⟩, ?_⟩
    apply List.mem_map.mpr
    exact ⟨m, by simp [hD1], rfl⟩
  have hchr : ∀ r ∈ R, r.page = X → r = tagRow 0 m := by
    intro r hr hpg
    rw [hR] at hr
    obtain ⟨p, hp, hrm⟩ := List.mem_flatMap.mp hr
    obtain ⟨u, i⟩ := p
    obtain ⟨fr, hfr, rfl⟩ := List.mem_map.mp hrm
    obtain ⟨hu, hi⟩ := (mem_urlWindowPairs urls 2 u i).mp hp
    simp only [tagRow] at hpg
    by_cases hux : u = X
    · subst hux
      have hi2 : i = 0 ∨ i = 1 := by omega
      rcases hi2 with rfl | rfl
      · rw [hD1] at hfr
        have hfm : fr = m := by simpa using hfr
        rw [hfm]
      · rw [hD2] at hfr
        cases hfr
    · exact absurd hpg (hother u hu i hi fr hfr hux)
  have hRne : R ≠ [] := List.ne_nil_of_mem hmemR
  have hcell0 : ∀ f : LongRow → ℚ, wideCell R X 0 f = some (f (tagRow 0 m)) := by
    intro f
    unfold wideCell
    apply head?_map_of_all_eq
    · intro hnil
      have hin : tagRow 0 m ∈ R.filter (fun r => r.page == X && r.period == 0) := by
        apply List.mem_filter.mpr
        refine ⟨hmemR, ?_⟩
        simp [tagRow, hpage]
      rw [hnil] at hin
      cases hin
    · intro a ha
      obtain ⟨haR, hpred⟩ := List.mem_filter.mp ha
      simp only [Bool.and_eq_true, beq_iff_eq] at hpred
      exact hchr a haR hpred.1
  have hcell1 : ∀ f : LongRow → ℚ, wideCell R X 1 f = none := by
    intro f
    unfold wideCell
    have hfil : R.filter (fun r => r.page == X && r.period == 1) = [] := by
      rw [List.filter_eq_nil_iff]
      intro r hr hb
      simp only [Bool.and_eq_true, beq_iff_eq] at hb
      have hrm := hchr r hr hb.1
      rw [hrm] at hb
      simp [tagRow] at hb
    rw [hfil]
    rfl
  refine ⟨R, ?_, ?_, hcell0 _, hcell0 _, hcell0 _, hcell0 _,
    hcell1 _, hcell1 _, hcell1 _, hcell1 _⟩
  · simp [main_aggregate, hfp, hRne]
  · apply List.mem_dedup.mpr
    apply List.mem_map.mpr
    exact ⟨tagRow 0 m, hmemR, by simp [tagRow, hpage]⟩

/-- Claim C7 witness: the missing-window behaviour at a concrete two-URL
scenario where only (`"wa"`, window 1) has a data row. -/
theorem wide_table_missing_window_witness :
    ("wa" : String) ∈ ["wa", "wb"]
    ∧ wfetchRow.page = "wa"
    ∧ wfetch "wa" 0 = Except.ok [wfetchRow]
    ∧ wfetch "wa" 1 = Except.ok []
    ∧ (∃ rows, main_aggregate wfetch ["wa", "wb"] 2 = AggResult.table rows
        ∧ "wa" ∈ widePages rows
        ∧ wideCell rows "wa" 0 (fun r => r.clicks) = some wfetchRow.clicks
        ∧ wideCell rows "wa" 0 (fun r => r.impressions) = some wfetchRow.impressions
        ∧ wideCell rows "wa" 0 (fun r => r.ctr) = some wfetchRow.ctr
        ∧ wideCell rows "wa" 0 (fun r => r.position) = some wfetchRow.position
        ∧ wideCell rows "wa" 1 (fun r => r.clicks) = none
        ∧ wideCell rows "wa" 1 (fun r => r.impressions) = none
        ∧ wideCell rows "wa" 1 (fun r => r.ctr) = none
        ∧ wideCell rows "wa" 1 (fun r => r.position) = none) := by
  refine ⟨by simp, rfl, by simp [wfetch], by simp [wfetch], ?_⟩
  exact wide_table_missing_window wfetch ["wa", "wb"] "wa" wfetchRow
    (by simp) rfl (by simp [wfetch]) (by simp [wfetch])
    (by
      intro u hu i hi
      rcases Decidable.em (u = "wa" ∧ i = 0) with h | h
      · exact ⟨[wfetchRow], by simp [wfetch, h]⟩
      · exact ⟨[], by simp [wfetch, h]⟩)
    (by
      intro u hu i hi r hr hne
      simp at hu
      rcases hu with rfl | rfl
      · exact absurd rfl hne
      · simp [wfetch, okD] at hr)

/-- Claim C8: every entry of `create_metric_summary` satisfies the claimed
statistics: `total` is the arithmetic sum of the (non-null part of the)
column for clicks/impressions and the arithmetic mean for ctr/position, and
`avg`, `min`, `max` are the column's mean, minimum and maximum. -/
theorem create_metric_summary_stats (t : WideTableCols) (periods : List String)
    (metric : String) (entries : List (String × PeriodStats)) (p : String)
    (S : PeriodStats)
    (h1 : (metric, entries) ∈ create_metric_summary t periods)
    (h2 : (p, S) ∈ entries) :
    S.total = (if metric = "clicks" ∨ metric = "impressions"
               then some (colData t (metric ++ "_" ++ p)).sum
               else pdMean (colData t (metric ++ "_" ++ p)))
    ∧ S.avg = pdMean (colData t (metric ++ "_" ++ p))
    ∧ S.statMin = (colData t (metric ++ "_" ++ p)).min?
    ∧ S.statMax = (colData t (metric ++ "_" ++ p)).max? := by
  obtain ⟨m2, hm2, heq⟩ := List.mem_map.mp h1
  injection heq with hmeq heq2
  subst hmeq
  subst heq2
  obtain ⟨p2, hp2, hf⟩ := List.mem_filterMap.mp h2
  dsimp only at hf
  by_cases hc : (m2 ++ "_" ++ p2) ∈ t.cols
  · rw [if_pos hc] at hf
    injection hf with hf2
    injection hf2 with hpe hSe
    subst hpe
    subst hSe
    exact ⟨rfl, rfl, rfl, rfl⟩
  · rw [if_neg hc] at hf
    cases hf

/-- Claim C8 witness: the summary statistics on the fixed three-cell fixture
column `[2, NaN, 3]`: total 5 (sum), average 5/2, minimum 2, maximum 3. -/
theorem create_metric_summary_stats_witness :
    (("clicks",
        [("Period_1", (⟨some 5, some (5/2), some 2, some 3⟩ : PeriodStats))])
      ∈ create_metric_summary wtFixture ["Period_1"])
    ∧ (("Period_1", (⟨some 5, some (5/2), some 2, some 3⟩ : PeriodStats))
        ∈ [("Period_1", (⟨some 5, some (5/2), some 2, some 3⟩ : PeriodStats))])
    ∧ (⟨some 5, some (5/2), some 2, some 3⟩ : PeriodStats).total
        = (if ("clicks" : String) = "clicks" ∨ ("clicks" : String) = "impressions"
           then some (colData wtFixture ("clicks" ++ "_" ++ "Period_1")).sum
           else pdMean (colData wtFixture ("clicks" ++ "_" ++ "Period_1"))) := by
  have e1 : ("clicks" ++ "_" ++ "Period_1" : String) = "clicks_Period_1" := by decide
  have e2 : ("impressions" ++ "_" ++ "Period_1" : String) = "impressions_Period_1" := by
    decide
  have e3 : ("position" ++ "_" ++ "Period_1" : String) = "position_Period_1" := by decide
  have e4 : ("ctr" ++ "_" ++ "Period_1" : String) = "ctr_Period_1" := by decide
  have hmin : ([2, 3] : List ℚ).min? = some 2 := by
    rw [List.min?_cons]
    norm_num
  have hmax : ([2, 3] : List ℚ).max? = some 3 := by
    rw [List.max?_cons]
    norm_num
  have hlist : create_metric_summary wtFixture ["Period_1"] =
      [("clicks", [("Period_1", ⟨some 5, some (5/2), some 2, some 3⟩)]),
       ("impressions", []), ("position", []), ("ctr", [])] := by
    simp only [create_metric_summary, List.map_cons, List.map_nil,
      List.filterMap_cons, List.filterMap_nil, e1, e2, e3, e4]
    simp [wtFixture, colData, List.reduceOption, List.filterMap_cons,
      List.filterMap_nil, pdMean, hmin, hmax]
    norm_num
  refine ⟨by rw [hlist]; simp, by simp, ?_⟩
  exact (create_metric_summary_stats wtFixture ["Period_1"] "clicks"
    [("Period_1", ⟨some 5, some (5/2), some 2, some 3⟩)] "Period_1"
    ⟨some 5, some (5/2), some 2, some 3⟩ (by rw [hlist]; simp) (by simp)).1
